import Mathlib

/-!
Verification of `stream_breathing_amp_multi.py`: a bridge from a BLE
breathing-belt sensor to an LSL stream.  We embed the notification handler
`BBeltBleak._ble_handler`, the 5-second diagnostic tick of `BBeltBleak._main`,
the teardown path `BBeltBleak.terminate` / `BBeltBleak._terminate`, and the
outlet declaration made in `__main__`, and prove the spec's testable
properties about them.
-/

namespace BBelt

/-- `SAMPLINGRATE = 12` (line 14 of the source): declared nominal rate. -/
def SAMPLINGRATE : Nat := 12

/-- The mutable fields of a `BBeltBleak` session touched by the notification
handler: `self.bamp`, `self.bIR` and `self.samples_in` (lines 28-32). -/
structure BBeltState where
  bamp : Nat
  bIR : Nat
  samples_in : Nat
  deriving DecidableEq, Repr

/-- Initial state set by `BBeltBleak.__init__`: `bamp = 0`, `bIR = 0`,
`samples_in = 0` (lines 28-32). -/
def initState : BBeltState := { bamp := 0, bIR := 0, samples_in := 0 }

/-- `struct.unpack('>L', buf)[0]`: succeeds exactly on 4-byte buffers,
returning the big-endian unsigned 32-bit value; any other length raises
`struct.error`, modelled as `Except.error`. -/
def unpack_be32 (buf : List Nat) : Except String Nat :=
  match buf with
  | [b0, b1, b2, b3] => Except.ok (((b0 * 256 + b1) * 256 + b2) * 256 + b3)
  | _ => Except.error "unpack requires a buffer of 4 bytes"

/-- Big-endian uint32 of bytes 0..3 of a payload (`data[0:4]`). -/
def primaryOf (data : List Nat) : Nat :=
  ((data.getD 0 0 * 256 + data.getD 1 0) * 256 + data.getD 2 0) * 256 + data.getD 3 0

/-- Big-endian uint32 of bytes 4..7 of a payload (`data[4:8]`). -/
def secondaryOf (data : List Nat) : Nat :=
  ((data.getD 4 0 * 256 + data.getD 5 0) * 256 + data.getD 6 0) * 256 + data.getD 7 0

/-- `BBeltBleak._ble_handler` (lines 42-58).  `cb` records whether a callback
is registered (`self.callback is not None`).  Returns the updated session
state and `some sample` when the callback is invoked with that sample
(`self.callback([self.bamp, self.bIR])`), `none` when it is not; an
`Except.error` models an uncaught Python exception. -/
def ble_handler (cb : Bool) (s : BBeltState) (data : List Nat) :
    Except String (BBeltState × Option (List Nat)) :=
  if 4 ≤ data.length then do
    let bamp ← unpack_be32 (data.take 4)
    let bIR ← if 8 ≤ data.length then unpack_be32 ((data.drop 4).take 4)
              else pure s.bIR
    let s1 : BBeltState := { bamp := bamp, bIR := bIR, samples_in := s.samples_in + 1 }
    pure (s1, if cb then some [s1.bamp, s1.bIR] else none)
  else
    pure (s, none)

/-- Pure normal form of `ble_handler` (proved equal in `ble_handler_eq_step`). -/
def ble_step (cb : Bool) (s : BBeltState) (data : List Nat) :
    BBeltState × Option (List Nat) :=
  if 4 ≤ data.length then
    let bamp := primaryOf data
    let bIR := if 8 ≤ data.length then secondaryOf data else s.bIR
    ({ bamp := bamp, bIR := bIR, samples_in := s.samples_in + 1 },
     if cb then some [bamp, bIR] else none)
  else (s, none)

/-- A sequence of notification deliveries: handle each payload in order,
collecting every sample passed to the callback. -/
def runHandler (cb : Bool) : BBeltState → List (List Nat) →
    Except String (BBeltState × List (List Nat))
  | s, [] => Except.ok (s, [])
  | s, d :: ds =>
    (ble_handler cb s d).bind fun r1 =>
      (runHandler cb r1.1 ds).bind fun r2 =>
        Except.ok (r2.1, r1.2.toList ++ r2.2)

/-- Pure normal form of `runHandler`. -/
def runPure (cb : Bool) : BBeltState → List (List Nat) →
    BBeltState × List (List Nat)
  | s, [] => (s, [])
  | s, d :: ds =>
    let r1 := ble_step cb s d
    let r2 := runPure cb r1.1 ds
    (r2.1, r1.2.toList ++ r2.2)

/-- The last big-endian secondary value carried by a payload of length ≥ 8 in
a delivery sequence, or 0 when no such payload occurred. -/
def lastSecondary (ds : List (List Nat)) : Nat :=
  ds.foldl (fun acc d => if 8 ≤ d.length then secondaryOf d else acc) 0

/-- One iteration of the diagnostic loop in `BBeltBleak._main` (lines 81-85):
report `samples_in / 5.` and reset the counter to 0. -/
def diagnostic_tick (s : BBeltState) : BBeltState × Rat :=
  ({ s with samples_in := 0 }, (s.samples_in : Rat) / 5)

/-! ## Teardown path -/

/-- The two transport operations issued by `BBeltBleak._terminate`. -/
inductive TransportOp where
  | stop_notify
  | disconnect
  deriving DecidableEq, Repr, BEq

/-- Failure behaviour of the BLE transport during teardown: whether
`client.stop_notify` and `client.disconnect` raise. -/
structure Transport where
  stop_notify_fails : Bool
  disconnect_fails : Bool
  deriving DecidableEq, Repr

/-- `BBeltBleak._terminate` (lines 95-97): awaits `stop_notify`, then awaits
`disconnect`; there is no exception handling inside it, so an exception from
`stop_notify` propagates at once and `disconnect` is never reached.  The
result carries the list of operations actually invoked; an error additionally
carries a message. -/
def terminate_aux (t : Transport) : Except (String × List TransportOp) (List TransportOp) :=
  if t.stop_notify_fails then
    Except.error ("stop_notify raised", [TransportOp.stop_notify])
  else if t.disconnect_fails then
    Except.error ("disconnect raised", [TransportOp.stop_notify, TransportOp.disconnect])
  else
    Except.ok [TransportOp.stop_notify, TransportOp.disconnect]

/-- `BBeltBleak.terminate` (lines 99-107): runs `_terminate` inside
`try ... except Exception as e: print(e)`, so any exception is caught and
logged and the call always returns normally with whatever operations were
invoked. -/
def terminate (t : Transport) : Except String (List TransportOp) :=
  match terminate_aux t with
  | Except.ok ops => Except.ok ops
  | Except.error (_msg, ops) => Except.ok ops

/-! ## Outlet declaration (`__main__`, lines 116-130) -/

/-- The command-line arguments consumed by `__main__`. -/
structure Args where
  mac_address : String
  name : String
  type : String
  verbose : Bool
  deriving Repr

/-- Defaults of the argument parser (lines 117-120). -/
def defaultArgs : Args :=
  { mac_address := "FB:88:11:1E:90:F3", name := "ullo_bb",
    type := "breathing_amp", verbose := false }

/-- The metadata of a `pylsl.StreamInfo` declaration. -/
structure StreamInfo where
  name : String
  type : String
  channel_count : Nat
  nominal_srate : Nat
  channel_format : String
  source_id : String
  deriving Repr, DecidableEq

/-- `info_bamp = StreamInfo(args.name, args.type, 2, SAMPLINGRATE, 'float32',
'%s_%s_%s' % (args.name, args.type, args.mac_address))` (line 129). -/
def info_bamp (a : Args) : StreamInfo :=
  { name := a.name, type := a.type, channel_count := 2,
    nominal_srate := SAMPLINGRATE, channel_format := "float32",
    source_id := a.name ++ "_" ++ a.type ++ "_" ++ a.mac_address }

/-- The outlet declarations created by the process: exactly the single
`StreamOutlet(info_bamp)` of line 130. -/
def outlets_created (a : Args) : List StreamInfo := [info_bamp a]

/-! ## Helper lemmas -/

/-- On a payload of length < 4 the handler returns the state unchanged and
invokes no callback. -/
theorem ble_handler_short (cb : Bool) (s : BBeltState) (d : List Nat)
    (h : d.length < 4) : ble_handler cb s d = Except.ok (s, none) := by
  match d with
  | [] => rfl
  | [_] => rfl
  | [_, _] => rfl
  | [_, _, _] => rfl
  | _ :: _ :: _ :: _ :: _ => simp at h; omega

/-- On a payload of length in [4,8) the handler decodes the primary value,
keeps the stored secondary, and bumps the counter. -/
theorem ble_handler_mid (cb : Bool) (s : BBeltState) (d : List Nat)
    (h4 : 4 ≤ d.length) (h8 : d.length < 8) :
    ble_handler cb s d =
      Except.ok ({ bamp := primaryOf d, bIR := s.bIR,
                   samples_in := s.samples_in + 1 },
                 if cb then some [primaryOf d, s.bIR] else none) := by
  match d with
  | [_, _, _, _] => rfl
  | [_, _, _, _, _] => rfl
  | [_, _, _, _, _, _] => rfl
  | [_, _, _, _, _, _, _] => rfl
  | [] | [_] | [_, _] | [_, _, _] => simp at h4
  | _ :: _ :: _ :: _ :: _ :: _ :: _ :: _ :: _ => simp at h8; omega

/-- On a payload of length ≥ 8 the handler decodes both values and bumps the
counter. -/
theorem ble_handler_long (cb : Bool) (s : BBeltState) (d : List Nat)
    (h8 : 8 ≤ d.length) :
    ble_handler cb s d =
      Except.ok ({ bamp := primaryOf d, bIR := secondaryOf d,
                   samples_in := s.samples_in + 1 },
                 if cb then some [primaryOf d, secondaryOf d] else none) := by
  match d with
  | b0 :: b1 :: b2 :: b3 :: b4 :: b5 :: b6 :: b7 :: rest =>
    have l4 : 4 ≤ (b0 :: b1 :: b2 :: b3 :: b4 :: b5 :: b6 :: b7 :: rest).length := by
      simp
    have l8 : 8 ≤ (b0 :: b1 :: b2 :: b3 :: b4 :: b5 :: b6 :: b7 :: rest).length := by
      simp
    simp only [ble_handler, if_pos l4, if_pos l8]
    rfl
  | [] | [_] | [_, _] | [_, _, _] | [_, _, _, _] | [_, _, _, _, _]
  | [_, _, _, _, _, _] | [_, _, _, _, _, _, _] => simp at h8

/-- The handler agrees with its pure normal form. -/
theorem ble_handler_eq_step (cb : Bool) (s : BBeltState) (d : List Nat) :
    ble_handler cb s d = Except.ok (ble_step cb s d) := by
  by_cases h8 : 8 ≤ d.length
  · rw [ble_handler_long cb s d h8]
    simp [ble_step, h8, show 4 ≤ d.length by omega]
  · by_cases h4 : 4 ≤ d.length
    · rw [ble_handler_mid cb s d h4 (by omega)]
      simp [ble_step, h4, h8]
    · rw [ble_handler_short cb s d (by omega)]
      simp [ble_step, h4]

/-- Binding a successful `Except` computation just applies the continuation. -/
theorem ok_bind {ε α β : Type} (a : α) (f : α → Except ε β) :
    (Except.ok a : Except ε α).bind f = f a := rfl

/-- The trace runner agrees with its pure normal form. -/
theorem runHandler_eq (cb : Bool) :
    ∀ (ds : List (List Nat)) (s : BBeltState),
      runHandler cb s ds = Except.ok (runPure cb s ds)
  | [], _ => rfl
  | d :: ds, s => by
    simp only [runHandler, ble_handler_eq_step cb s d, ok_bind,
      runHandler_eq cb ds (ble_step cb s d).1]
    rfl

/-- The stored secondary after a delivery sequence is the fold of the
secondary updates over the sequence. -/
theorem runPure_bIR (cb : Bool) :
    ∀ (ds : List (List Nat)) (s : BBeltState),
      (runPure cb s ds).1.bIR =
        ds.foldl (fun acc d => if 8 ≤ d.length then secondaryOf d else acc) s.bIR
  | [], _ => rfl
  | d :: ds, s => by
    have hstep : (ble_step cb s d).1.bIR =
        if 8 ≤ d.length then secondaryOf d else s.bIR := by
      by_cases h8 : 8 ≤ d.length
      · simp [ble_step, h8, show 4 ≤ d.length by omega]
      · by_cases h4 : 4 ≤ d.length
        · simp [ble_step, h4, h8]
        · simp [ble_step, h4, h8]
    simp only [runPure, List.foldl_cons]
    rw [runPure_bIR cb ds (ble_step cb s d).1, hstep]

/-- With a registered callback, the number of collected samples over a trace
equals the number of payloads of length ≥ 4. -/
theorem runPure_outs_len :
    ∀ (ds : List (List Nat)) (s : BBeltState),
      (runPure true s ds).2.length =
        ds.countP (fun d => decide (4 ≤ d.length))
  | [], _ => rfl
  | d :: ds, s => by
    have hout : (ble_step true s d).2.toList.length =
        if 4 ≤ d.length then 1 else 0 := by
      by_cases h4 : 4 ≤ d.length
      · simp [ble_step, h4]
      · simp [ble_step, h4]
    simp only [runPure, List.countP_cons, List.length_append,
      runPure_outs_len ds (ble_step true s d).1, hout]
    by_cases h4 : 4 ≤ d.length
    · simp [h4, Nat.add_comm]
    · simp [h4]

/-! ## Claim theorems -/

/-- C1: for every payload of length in [4,8) delivered after any prior
delivery sequence from the initial state, the decoder produces a Sample whose
primary is the big-endian uint32 of bytes 0..3 and whose secondary is the
last secondary carried by a previous payload of length ≥ 8 (0 if none); the
callback, when registered, receives exactly that pair. -/
theorem decode_mid_payload (cb : Bool) (ds : List (List Nat)) (d : List Nat)
    (h4 : 4 ≤ d.length) (h8 : d.length < 8) :
    ∀ s1 outs, runHandler cb initState ds = Except.ok (s1, outs) →
      ble_handler cb s1 d =
        Except.ok ({ bamp := primaryOf d, bIR := lastSecondary ds,
                     samples_in := s1.samples_in + 1 },
                   if cb then some [primaryOf d, lastSecondary ds] else none) := by
  intro s1 outs h
  rw [runHandler_eq] at h
  injection h with h2
  have hb : s1.bIR = lastSecondary ds := by
    have hinv := runPure_bIR cb ds initState
    rw [h2] at hinv
    exact hinv
  rw [ble_handler_mid cb s1 d h4 h8, hb]

/-- C1 witness: after handling the 8-byte payload 00 00 00 01 00 00 00 02 and
then the 4-byte payload 00 00 00 03, the second decode yields the Sample
[3, 2]: the secondary persists. -/
theorem decode_mid_payload_witness :
    ble_handler true { bamp := 1, bIR := 2, samples_in := 1 } [0, 0, 0, 3] =
      Except.ok ({ bamp := 3, bIR := 2, samples_in := 2 }, some [3, 2]) := by
  have h := decode_mid_payload true [[0, 0, 0, 1, 0, 0, 0, 2]] [0, 0, 0, 3]
    (by decide) (by decide)
    { bamp := 1, bIR := 2, samples_in := 1 } [[1, 2]] (by rfl)
  simpa using h

/-- C2: for every payload of length ≥ 8, the decoded Sample's secondary is
the big-endian uint32 of bytes 4..7, overwriting whatever secondary was
stored before. -/
theorem decode_long_payload (cb : Bool) (s : BBeltState) (d : List Nat)
    (h8 : 8 ≤ d.length) :
    ble_handler cb s d =
      Except.ok ({ bamp := primaryOf d, bIR := secondaryOf d,
                   samples_in := s.samples_in + 1 },
                 if cb then some [primaryOf d, secondaryOf d] else none) :=
  ble_handler_long cb s d h8

/-- C2 witness: the payload 00 00 00 05 00 00 00 07 decodes to the Sample
[5, 7]. -/
theorem decode_long_payload_witness :
    ble_handler true initState [0, 0, 0, 5, 0, 0, 0, 7] =
      Except.ok ({ bamp := 5, bIR := 7, samples_in := 1 }, some [5, 7]) := by
  simpa using decode_long_payload true initState [0, 0, 0, 5, 0, 0, 0, 7] (by decide)

/-- C3: a payload of length < 4 produces no Sample, invokes no callback, and
leaves the stored primary, stored secondary and sample counter unchanged. -/
theorem drop_short_payload (cb : Bool) (s : BBeltState) (d : List Nat)
    (h : d.length < 4) :
    ble_handler cb s d = Except.ok (s, none) :=
  ble_handler_short cb s d h

/-- C3 witness: the 2-byte payload 01 02 is silently dropped from the initial
state. -/
theorem drop_short_payload_witness :
    ble_handler true initState [1, 2] = Except.ok (initState, none) :=
  drop_short_payload true initState [1, 2] (by decide)

/-- C4: the sample counter grows by exactly 1 on a handled payload of length
≥ 4 and by 0 otherwise; a diagnostic tick resets it to 0 and reports the rate
counter / 5. -/
theorem sample_counter_and_tick (cb : Bool) (s : BBeltState) (d : List Nat) :
    (∀ s1 out, ble_handler cb s d = Except.ok (s1, out) →
        s1.samples_in =
          if 4 ≤ d.length then s.samples_in + 1 else s.samples_in)
    ∧ (diagnostic_tick s).1.samples_in = 0
    ∧ (diagnostic_tick s).2 = (s.samples_in : Rat) / 5 := by
  refine ⟨?_, rfl, rfl⟩
  intro s1 out h
  rw [ble_handler_eq_step] at h
  injection h with h2
  have hs1 : s1 = (ble_step cb s d).1 := by rw [h2]
  subst hs1
  by_cases h4 : 4 ≤ d.length
  · rw [if_pos h4]
    simp [ble_step, h4]
  · rw [if_neg h4]
    simp [ble_step, h4]

/-- C4 witness: handling 00 00 00 05 from the initial state bumps the counter
to 1, and the diagnostic tick on the initial state resets to 0 and reports
rate 0 / 5. -/
theorem sample_counter_and_tick_witness :
    (({ bamp := 5, bIR := 0, samples_in := 1 } : BBeltState).samples_in =
        if 4 ≤ ([0, 0, 0, 5] : List Nat).length then initState.samples_in + 1
        else initState.samples_in)
    ∧ (diagnostic_tick initState).1.samples_in = 0
    ∧ (diagnostic_tick initState).2 = (initState.samples_in : Rat) / 5 :=
  ⟨(sample_counter_and_tick true initState [0, 0, 0, 5]).1
      { bamp := 5, bIR := 0, samples_in := 1 } (some [5, 0]) (by rfl),
   (sample_counter_and_tick true initState [0, 0, 0, 5]).2.1,
   (sample_counter_and_tick true initState [0, 0, 0, 5]).2.2⟩

/-- C5 counterexample: with a transport whose stop_notify raises, the
termination path invokes stop_notify only and never reaches disconnect, so
disconnect is not invoked exactly once. -/
theorem terminate_claim_counterexample :
    terminate { stop_notify_fails := true, disconnect_fails := false } =
      Except.ok [TransportOp.stop_notify]
    ∧ [TransportOp.stop_notify].count TransportOp.disconnect = 0 := by
  exact ⟨rfl, rfl⟩

/-- C5 (amended): on the termination path, stop_notify is always invoked
exactly once; disconnect is invoked exactly once when stop_notify does not
raise, and not at all when it does (a disconnect error does not prevent its
invocation); the path always returns normally. -/
theorem terminate_ops (t : Transport) :
    ∃ ops, terminate t = Except.ok ops
      ∧ ops.count TransportOp.stop_notify = 1
      ∧ ops.count TransportOp.disconnect =
          (if t.stop_notify_fails then 0 else 1) := by
  cases t with
  | mk snf df =>
    cases snf <;> cases df <;> exact ⟨_, rfl, by decide, by decide⟩

/-- C6: for every payload of length ≥ 4 handled with a registered callback,
the callback is invoked exactly once, synchronously, with the two-element
list [primary, secondary] decoded from that payload. -/
theorem callback_dispatch (s : BBeltState) (d : List Nat)
    (h4 : 4 ≤ d.length) :
    ble_handler true s d =
      Except.ok ({ bamp := primaryOf d,
                   bIR := if 8 ≤ d.length then secondaryOf d else s.bIR,
                   samples_in := s.samples_in + 1 },
                 some [primaryOf d,
                       if 8 ≤ d.length then secondaryOf d else s.bIR]) := by
  by_cases h8 : 8 ≤ d.length
  · rw [ble_handler_long true s d h8, if_pos h8]
    simp
  · rw [ble_handler_mid true s d h4 (by omega), if_neg h8]
    simp

/-- C6 witness: the payload 00 00 00 05 handled from the initial state
dispatches exactly the sample [5, 0] to the callback. -/
theorem callback_dispatch_witness :
    ble_handler true initState [0, 0, 0, 5] =
      Except.ok ({ bamp := 5,
                   bIR := if 8 ≤ ([0, 0, 0, 5] : List Nat).length then
                            secondaryOf [0, 0, 0, 5] else initState.bIR,
                   samples_in := 1 },
                 some [5, if 8 ≤ ([0, 0, 0, 5] : List Nat).length then
                            secondaryOf [0, 0, 0, 5] else initState.bIR]) := by
  simpa using callback_dispatch initState [0, 0, 0, 5] (by decide)

/-- C7: the notification handler never raises, whatever the length or
contents of the delivered buffer: short buffers are dropped and all others
decode without error. -/
theorem handler_total (cb : Bool) (s : BBeltState) (d : List Nat) :
    ∃ r, ble_handler cb s d = Except.ok r :=
  ⟨ble_step cb s d, ble_handler_eq_step cb s d⟩

/-- C8: the process creates exactly one outlet declaration, with channel
count 2, float32 format, nominal rate SAMPLINGRATE = 12 Hz and source id
name_type_mac, and with a registered callback one sample is pushed per
payload of length ≥ 4. -/
theorem outlet_and_push (a : Args) (ds : List (List Nat)) :
    (outlets_created a).length = 1
    ∧ (info_bamp a).channel_count = 2
    ∧ (info_bamp a).channel_format = "float32"
    ∧ (info_bamp a).nominal_srate = SAMPLINGRATE
    ∧ SAMPLINGRATE = 12
    ∧ (info_bamp a).source_id = a.name ++ "_" ++ a.type ++ "_" ++ a.mac_address
    ∧ (∀ s1 outs, runHandler true initState ds = Except.ok (s1, outs) →
        outs.length = ds.countP (fun d => decide (4 ≤ d.length))) := by
  refine ⟨rfl, rfl, rfl, rfl, rfl, rfl, ?_⟩
  intro s1 outs h
  rw [runHandler_eq] at h
  injection h with h2
  have := runPure_outs_len ds initState
  rw [h2] at this
  exact this

/-- C8 witness: over the deliveries [00 00 00 05], [01 02],
[00 00 00 05 00 00 00 07] exactly two samples are pushed, matching the two
payloads of length ≥ 4. -/
theorem outlet_and_push_witness :
    ([[5, 0], [5, 7]] : List (List Nat)).length =
      ([[0, 0, 0, 5], [1, 2], [0, 0, 0, 5, 0, 0, 0, 7]] :
        List (List Nat)).countP (fun d => decide (4 ≤ d.length)) :=
  (outlet_and_push defaultArgs
      [[0, 0, 0, 5], [1, 2], [0, 0, 0, 5, 0, 0, 0, 7]]).2.2.2.2.2.2
    { bamp := 5, bIR := 7, samples_in := 2 } [[5, 0], [5, 7]] (by rfl)

/-- C9: the terminate operation always returns normally: errors raised by
stop_notify or disconnect are caught and logged, never propagated. -/
theorem terminate_no_raise (t : Transport) :
    ∃ ops, terminate t = Except.ok ops := by
  cases t with
  | mk snf df => cases snf <;> cases df <;> exact ⟨_, rfl⟩

/-- C10: with no registered callback, a payload of length ≥ 4 still updates
the stored primary and secondary and still bumps the counter, raising no
error; only the dispatch is skipped. -/
theorem no_callback_still_updates (s : BBeltState) (d : List Nat)
    (h4 : 4 ≤ d.length) :
    ble_handler false s d =
      Except.ok ({ bamp := primaryOf d,
                   bIR := if 8 ≤ d.length then secondaryOf d else s.bIR,
                   samples_in := s.samples_in + 1 }, none) := by
  by_cases h8 : 8 ≤ d.length
  · rw [ble_handler_long false s d h8, if_pos h8]
    simp
  · rw [ble_handler_mid false s d h4 (by omega), if_neg h8]
    simp

/-- C10 witness: the payload 00 00 00 05 00 00 00 09 handled with no
callback still records primary 5, secondary 9 and counter 1. -/
theorem no_callback_still_updates_witness :
    ble_handler false initState [0, 0, 0, 5, 0, 0, 0, 9] =
      Except.ok ({ bamp := 5,
                   bIR := if 8 ≤ ([0, 0, 0, 5, 0, 0, 0, 9] : List Nat).length
                          then secondaryOf [0, 0, 0, 5, 0, 0, 0, 9]
                          else initState.bIR,
                   samples_in := 1 }, none) := by
  simpa using no_callback_still_updates initState [0, 0, 0, 5, 0, 0, 0, 9] (by decide)

end BBelt
